import Mathlib

/-!
# Web-of-trust service handler (go/service/wot.go)

A shallow embedding of the handler functions of `go/service/wot.go` and the
properties of the vouch / react / dismiss workflow that follow from them.

External collaborators (the UPAK loader, the engines, the attestation reader
and the gregor event store) are passed in as records of functions.  Every
handler returns an `Outcome`: the calls it issued to the mutating collaborator,
in order, together with the Go `error` it returned (`none` is `nil`).
-/

/-! ## Errors and outcomes -/

/-- The taxonomy of section 7 of the specification. -/
inductive ErrorKind
  | InvalidStateError
  | IllegalTransitionError
  | NoOpError
  | UnknownStateError
  | NotFoundError
  | TrackingBrokeError
  | DecodeError
  | External
deriving DecidableEq, Repr

/-- The Go `error` values that the handlers of wot.go return, one constructor
per return site; `collaborator` and `decode` stand for errors handed back by an
external call and by `json.Unmarshal`, which the handlers return unchanged. -/
inductive Err
  /-- wot.go:134 -/
  | notFound (username : String)
  /-- wot.go:139 -/
  | corrupt (username : String)
  /-- wot.go:141 -/
  | previouslyRejected
  /-- wot.go:143 -/
  | previouslyRevoked
  /-- wot.go:146 -/
  | alreadyAccepted
  /-- wot.go:152 -/
  | unknownStatus (status : Int)
  /-- wot.go:70 -/
  | missingIdentifyResult
  /-- wot.go:74, `libkb.TrackingBrokeError{}` -/
  | trackingBroke
  /-- wot.go:216, the error of `json.Unmarshal` -/
  | decode (detail : String)
  /-- an error returned by an external collaborator -/
  | collaborator (detail : String)
deriving DecidableEq, Repr

/-- The message of the errors that wot.go builds with `fmt.Errorf`, as written
there; `none` for the errors whose text is made elsewhere.  The `%v` of an
unrecognised status prints its number. -/
def Err.message : Err → Option String
  | .notFound username => some ("could not find an attestation of you by " ++ username)
  | .corrupt username =>
      some ("something is wrong with this attestation; please ask " ++ username ++
        " to recreate it")
  | .previouslyRejected =>
      some "cannot react to an attestation that was previously rejected"
  | .previouslyRevoked =>
      some "cannot react to an attestation that was previously revoked"
  | .alreadyAccepted => some "already accepted"
  | .unknownStatus status =>
      some ("unknown status on web-of-trust attestation: " ++ toString status)
  | .missingIdentifyResult => some "missing identify result"
  | .trackingBroke => none
  | .decode _ => none
  | .collaborator _ => none

/-- The kind of section 7 under which each error of wot.go falls (the table of
section 4.1 pairs each kind with its message). -/
def Err.kind : Err → ErrorKind
  | .notFound _ => .NotFoundError
  | .corrupt _ => .InvalidStateError
  | .previouslyRejected => .IllegalTransitionError
  | .previouslyRevoked => .IllegalTransitionError
  | .alreadyAccepted => .NoOpError
  | .unknownStatus _ => .UnknownStateError
  | .missingIdentifyResult => .External
  | .trackingBroke => .TrackingBrokeError
  | .decode _ => .DecodeError
  | .collaborator _ => .External

/-- What a handler did: the calls issued to the mutating collaborator, oldest
first, and the returned error. -/
structure Outcome (α : Type) where
  issued : List α
  err : Option Err
deriving DecidableEq, Repr

/-! ## Protocol types (package keybase1) -/

namespace keybase1

/-- Modelled from the spec: the declaration of keybase1.UserVersion is not
under src; it is the "identity+revision pair" of section 3. -/
structure UserVersion where
  Uid : String
  EldestSeqno : Int
deriving DecidableEq, Repr

/-- Modelled from the spec: `UserVersion.Eq` is not under src; section 4.3
locates a record "by equality" of the identity+revision pair. -/
def UserVersion.Eq (u v : UserVersion) : Bool :=
  u.Uid == v.Uid && u.EldestSeqno == v.EldestSeqno

/-- `keybase1.WotStatusType`: a Go integer type, so values outside the five
named ones can occur.  The five constants are declared outside src and carry
the numbers of the protocol; the handlers only compare them. -/
abbrev WotStatusType := Int

def WotStatusType_NONE : WotStatusType := 0

def WotStatusType_PROPOSED : WotStatusType := 1

def WotStatusType_ACCEPTED : WotStatusType := 2

def WotStatusType_REJECTED : WotStatusType := 3

def WotStatusType_REVOKED : WotStatusType := 4

/-- `keybase1.WotReactionType`: a Go integer type with the two named values
REJECT and ACCEPT, declared outside src. -/
abbrev WotReactionType := Int

def WotReactionType_REJECT : WotReactionType := 0

def WotReactionType_ACCEPT : WotReactionType := 1

/-- Modelled from the spec: keybase1.Confidence is declared outside src; the
handlers only pass it on, so it is kept as an uninterpreted payload. -/
structure Confidence where
  payload : String
deriving DecidableEq, Repr

/-- Modelled from the spec: the Vouch Record of section 3 (keybase1.WotVouch is
declared outside src). -/
structure WotVouch where
  Status : WotStatusType
  VouchProof : String
  Vouchee : UserVersion
  Voucher : UserVersion
  VouchTexts : List String
  Confidence : Option Confidence
deriving DecidableEq, Repr

/-- The part of keybase1.UserPlusKeys that `ToUserVersion` reads. -/
structure UserPlusKeys where
  Uid : String
  Username : String
  EldestSeqno : Int
deriving DecidableEq, Repr

def UserPlusKeys.ToUserVersion (u : UserPlusKeys) : UserVersion :=
  { Uid := u.Uid, EldestSeqno := u.EldestSeqno }

/-- The result of the UPAK loader: `upak.Base` is what wot.go reads. -/
structure UserPlusAllKeys where
  Base : UserPlusKeys
deriving DecidableEq, Repr

def UserPlusAllKeys.GetUID (u : UserPlusAllKeys) : String := u.Base.Uid

structure WotReactArg where
  SessionID : Int
  Voucher : UserVersion
  Proof : String
  Reaction : WotReactionType
deriving DecidableEq, Repr

structure WotReactCLIArg where
  SessionID : Int
  Username : String
  Reaction : WotReactionType
deriving DecidableEq, Repr

/-- Modelled from the spec: keybase1.WotProof is declared outside src; a proof
that failed during identification, passed on as it is. -/
structure WotProof where
  payload : String
deriving DecidableEq, Repr

/-- Modelled from the spec: keybase1.IdentifyTrackBreaks is declared outside
src; the broken tracking statements reported by identification. -/
structure IdentifyTrackBreaks where
  Keys : List String
  Proofs : List String
deriving DecidableEq, Repr

/-- The part of keybase1.UserPlusKeysV2 that `ToUserVersion` reads. -/
structure UserPlusKeysV2 where
  Uid : String
  Username : String
  EldestSeqno : Int
deriving DecidableEq, Repr

def UserPlusKeysV2.ToUserVersion (u : UserPlusKeysV2) : UserVersion :=
  { Uid := u.Uid, EldestSeqno := u.EldestSeqno }

structure UserPlusKeysV2AllIncarnations where
  Current : UserPlusKeysV2
deriving DecidableEq, Repr

/-- The identify result: `TrackBreaks` is a pointer, `none` is nil. -/
structure Identify2ResUPK2 where
  Upk : UserPlusKeysV2AllIncarnations
  TrackBreaks : Option IdentifyTrackBreaks
deriving DecidableEq, Repr

inductive TLFIdentifyBehavior
  | UNSET
  | CHAT_CLI
  | CHAT_GUI
  | CLI
deriving DecidableEq, Repr

structure IdentifyReason where
  Reason : String
deriving DecidableEq, Repr

/-- The fields of keybase1.Identify2Arg that wot.go:51-58 sets. -/
structure Identify2Arg where
  Uid : String
  UserAssertion : String
  NeedProofSet : Bool
  UseDelegateUI : Bool
  Reason : IdentifyReason
  IdentifyBehavior : TLFIdentifyBehavior
deriving DecidableEq, Repr

structure WotVouchArg where
  SessionID : Int
  Vouchee : UserVersion
  VouchTexts : List String
  Confidence : Confidence
deriving DecidableEq, Repr

structure WotVouchCLIArg where
  SessionID : Int
  Assertion : String
  VouchTexts : List String
  Confidence : Confidence
deriving DecidableEq, Repr

end keybase1

/-! ## Engine arguments (package engine) -/

namespace engine

/-- `engine.WotVouchArg`; a field that the caller leaves out is nil. -/
structure WotVouchArg where
  Vouchee : keybase1.UserVersion
  Confidence : keybase1.Confidence
  FailingProofs : List keybase1.WotProof
  VouchTexts : List String
deriving DecidableEq, Repr

/-- `engine.WotReactArg` as filled in by `WotReact` (wot.go:104-108). -/
structure WotReactArg where
  Voucher : keybase1.UserVersion
  Proof : String
  Reaction : keybase1.WotReactionType
deriving DecidableEq, Repr

end engine

namespace kbun

/-- `kbun.NormalizedUsername`, a Go string type. -/
abbrev NormalizedUsername := String

end kbun

namespace service

open keybase1 kbun

/-! ## The handlers of wot.go

The vouch path (wot.go:28-89) comes last here, so that the record type
`keybase1.WotVouch` is not shadowed by the handler of the same name. -/

/-! ### WotReact and WotReactCLI (wot.go:100-162) -/

/-- The collaborators of the reaction path. -/
structure ReactWorld where
  /-- `h.G().GetUPAKLoader().Load(NewLoadUserArg(g).WithName(name))` -/
  Load : String → Except Err UserPlusAllKeys
  /-- `libkb.FetchMyWot(mctx)` -/
  FetchMyWot : Except Err (List keybase1.WotVouch)
  /-- `engine.RunEngine2(mctx, engine.NewWotReact(g, earg))` -/
  RunWotReact : engine.WotReactArg → Option Err

/-- wot.go:100-111. -/
def WotReact (w : ReactWorld) (arg : WotReactArg) : Outcome engine.WotReactArg :=
  let earg : engine.WotReactArg :=
    { Voucher := arg.Voucher, Proof := arg.Proof, Reaction := arg.Reaction }
  { issued := [earg], err := w.RunWotReact earg }

/-- The loop of wot.go:126-132: the first attestation whose voucher is the
expected one, `none` for a nil `reactingVouch`. -/
def reactingVouch (expectedVoucher : UserVersion) :
    List keybase1.WotVouch → Option keybase1.WotVouch
  | [] => none
  | attestation :: rest =>
      if attestation.Voucher.Eq expectedVoucher then some attestation
      else reactingVouch expectedVoucher rest

/-- wot.go:113-162. -/
def WotReactCLI (w : ReactWorld) (arg : WotReactCLIArg) : Outcome engine.WotReactArg :=
  match w.Load arg.Username with
  | .error err => { issued := [], err := some err }
  | .ok upak =>
    let expectedVoucher := upak.Base.ToUserVersion
    match w.FetchMyWot with
    | .error err => { issued := [], err := some err }
    | .ok myVouches =>
      match reactingVouch expectedVoucher myVouches with
      | none => { issued := [], err := some (.notFound arg.Username) }
      | some reactingVouch =>
        let proceed : Outcome engine.WotReactArg :=
          WotReact w
            { SessionID := arg.SessionID
              Voucher := expectedVoucher
              Proof := reactingVouch.VouchProof
              Reaction := arg.Reaction }
        if reactingVouch.Status = WotStatusType_NONE then
          { issued := [], err := some (.corrupt arg.Username) }
        else if reactingVouch.Status = WotStatusType_REJECTED then
          { issued := [], err := some .previouslyRejected }
        else if reactingVouch.Status = WotStatusType_REVOKED then
          { issued := [], err := some .previouslyRevoked }
        else if reactingVouch.Status = WotStatusType_ACCEPTED then
          if arg.Reaction = WotReactionType_ACCEPT then
            { issued := [], err := some .alreadyAccepted }
          else proceed
        else if reactingVouch.Status = WotStatusType_PROPOSED then
          proceed
        else
          { issued := [], err := some (.unknownStatus reactingVouch.Status) }

/-! ### Notification dismissal (wot.go:164-227) -/

/-- wot.go:164-167: both fields are pointers, `none` is nil. -/
structure _wotMsg where
  Voucher : Option String
  Vouchee : Option String
deriving DecidableEq, Repr

/-- wot.go:169-176. -/
def hasWotMsg (testable : String) : Bool :=
  ["wot.new_vouch", "wot.accepted", "wot.rejected"].any (fun m => m == testable)

/-- wot.go:178-190.  `NewNormalizedUsername` is `kbun.NewNormalizedUsername`,
which is not under src and is taken as a parameter; `me` is the value of
`mctx.ActiveDevice().Username(mctx)`. -/
def isDismissable (NewNormalizedUsername : String → NormalizedUsername)
    (me : NormalizedUsername) (category : String) (msg : _wotMsg)
    (voucher vouchee : NormalizedUsername) : Bool :=
  let voucherMatches :=
    match msg.Voucher with
    | some v => NewNormalizedUsername v == voucher
    | none => false
  let voucheeMatches :=
    match msg.Vouchee with
    | some v => NewNormalizedUsername v == vouchee
    | none => false
  if category = "wot.new_vouch" then
    voucherMatches && (voucheeMatches || vouchee == me)
  else if category = "wot.accepted" ∨ category = "wot.rejected" then
    voucheeMatches && (voucherMatches || voucher == me)
  else
    false

/-- What a JSON body says about one key of `_wotMsg`: the key is missing, it is
the literal null, or it holds a string. -/
inductive JSONField
  | absent
  | null
  | str (s : String)
deriving DecidableEq, Repr

/-- The body of a gregor item as `json.Unmarshal` into a `_wotMsg` sees it:
either it does not decode (the error is returned), or it is an object (or null)
and says, for the keys "voucher" and "vouchee", what `JSONField` describes. -/
inductive Body
  | malformed (detail : String)
  | object (voucher vouchee : JSONField)
deriving DecidableEq, Repr

/-- The effect of `json.Unmarshal` on one pointer field of the destination: a
missing key leaves the field as it was, null sets it to nil, a string sets it. -/
def JSONField.store (old : Option String) : JSONField → Option String
  | .absent => old
  | .null => none
  | .str s => some s

/-- `json.Unmarshal(body, &wotMsg)` of wot.go:215: the destination is updated in
place, key by key. -/
def Unmarshal (body : Body) (wotMsg : _wotMsg) : Except Err _wotMsg :=
  match body with
  | .malformed detail => .error (.decode detail)
  | .object voucher vouchee =>
      .ok { Voucher := voucher.store wotMsg.Voucher, Vouchee := vouchee.store wotMsg.Vouchee }

/-- A pending gregor item: `Category().String()`, `Body()`, `Metadata().MsgID()`. -/
structure Item where
  category : String
  body : Body
  msgID : String
deriving DecidableEq, Repr

structure DismissWotNotificationsArg where
  Voucher : String
  Vouchee : String
deriving DecidableEq, Repr

/-- The collaborators of the dismissal path. -/
structure GregorWorld where
  /-- `mctx.ActiveDevice().Username(mctx)` -/
  me : NormalizedUsername
  /-- `kbun.NewNormalizedUsername` -/
  NewNormalizedUsername : String → NormalizedUsername
  /-- `h.G().GregorState.State(ctx)` -/
  State : Except Err (List Item)
  /-- `gregor1.ObjFactory{}.MakeCategory` -/
  MakeCategory : String → Except Err String
  /-- `state.ItemsWithCategoryPrefix` -/
  ItemsWithCategoryPrefix : List Item → String → Except Err (List Item)
  /-- `dismisser.DismissItem(ctx, nil, itemID)` -/
  DismissItem : String → Option Err

/-- The loop of wot.go:210-225, started with the current contents of the
variable `wotMsg`, which is declared before the loop (wot.go:209) and is the
destination of every `json.Unmarshal`. -/
def dismissLoop (w : GregorWorld) (arg : DismissWotNotificationsArg) :
    _wotMsg → List Item → Outcome String
  | _, [] => { issued := [], err := none }
  | wotMsg, item :: rest =>
    let category := item.category
    if !hasWotMsg category then dismissLoop w arg wotMsg rest
    else
      match Unmarshal item.body wotMsg with
      | .error err => { issued := [], err := some err }
      | .ok wotMsg =>
        if isDismissable w.NewNormalizedUsername w.me category wotMsg
            (w.NewNormalizedUsername arg.Voucher) (w.NewNormalizedUsername arg.Vouchee) then
          let itemID := item.msgID
          match w.DismissItem itemID with
          | some err => { issued := [itemID], err := some err }
          | none =>
            let later := dismissLoop w arg wotMsg rest
            { issued := itemID :: later.issued, err := later.err }
        else dismissLoop w arg wotMsg rest

/-- wot.go:192-227. -/
def DismissWotNotifications (w : GregorWorld) (arg : DismissWotNotificationsArg) :
    Outcome String :=
  match w.State with
  | .error err => { issued := [], err := some err }
  | .ok state =>
    match w.MakeCategory "wot" with
    | .error err => { issued := [], err := some err }
    | .ok categoryPrefix =>
      match w.ItemsWithCategoryPrefix state categoryPrefix with
      | .error err => { issued := [], err := some err }
      | .ok items => dismissLoop w arg { Voucher := none, Vouchee := none } items

/-! ### WotVouch and WotVouchCLI (wot.go:28-89) -/

/-- The collaborators of the vouch path.  The three functions on the identify
engine take the argument the engine was built with. -/
structure VouchWorld where
  /-- `h.G().GetUPAKLoader().Load(NewLoadUserArg(g).WithName(name))` -/
  Load : String → Except Err UserPlusAllKeys
  /-- `engine.RunEngine2` on `NewResolveThenIdentify2`, with the identify UI of
  the given session -/
  RunIdentify : Identify2Arg → Int → Option Err
  /-- `eng.Result(mctx)`; `.ok none` is a nil result without an error -/
  Result : Identify2Arg → Except Err (Option Identify2ResUPK2)
  /-- `eng.ResultWotFailingProofs(mctx)` -/
  ResultWotFailingProofs : Identify2Arg → Except Err (List WotProof)
  /-- `engine.RunEngine2(mctx, engine.NewWotVouch(g, earg))` -/
  RunWotVouch : engine.WotVouchArg → Option Err

/-- wot.go:28-40. -/
def WotVouch (w : VouchWorld) (arg : WotVouchArg) : Outcome engine.WotVouchArg :=
  let earg : engine.WotVouchArg :=
    { Vouchee := arg.Vouchee, VouchTexts := arg.VouchTexts, Confidence := arg.Confidence,
      FailingProofs := [] }
  { issued := [earg], err := w.RunWotVouch earg }

/-- The argument of the identify engine, wot.go:51-58. -/
def identify2Arg (upak : UserPlusAllKeys) (arg : WotVouchCLIArg) : Identify2Arg :=
  { Uid := upak.GetUID
    UserAssertion := arg.Assertion
    NeedProofSet := true
    UseDelegateUI := true
    Reason := { Reason := "Vouch for " ++ arg.Assertion }
    IdentifyBehavior := .CLI }

/-- wot.go:42-89. -/
def WotVouchCLI (w : VouchWorld) (arg : WotVouchCLIArg) : Outcome engine.WotVouchArg :=
  match w.Load arg.Assertion with
  | .error err => { issued := [], err := some err }
  | .ok upak =>
    let eng := identify2Arg upak arg
    match w.RunIdentify eng arg.SessionID with
    | some err => { issued := [], err := some err }
    | none =>
      match w.Result eng with
      | .error err => { issued := [], err := some err }
      | .ok none => { issued := [], err := some .missingIdentifyResult }
      | .ok (some idRes) =>
        if idRes.TrackBreaks ≠ none then
          { issued := [], err := some .trackingBroke }
        else
          match w.ResultWotFailingProofs eng with
          | .error err => { issued := [], err := some err }
          | .ok failingProofs =>
            let earg : engine.WotVouchArg :=
              { Vouchee := idRes.Upk.Current.ToUserVersion
                Confidence := arg.Confidence
                FailingProofs := failingProofs
                VouchTexts := arg.VouchTexts }
            { issued := [earg], err := w.RunWotVouch earg }

/-! ## Definitions used to state the properties -/

/-- The record located for a reaction: `r` is the first record of `vouches`, in
returned order, whose voucher equals `expected`. -/
def FirstMatch (expected : UserVersion) (vouches : List keybase1.WotVouch)
    (r : keybase1.WotVouch) : Prop :=
  ∃ pre post, vouches = pre ++ r :: post ∧
    (∀ x ∈ pre, x.Voucher.Eq expected = false) ∧ r.Voucher.Eq expected = true

/-- The direct reaction call that `WotReactCLI` builds for a located record. -/
def reissue (arg : WotReactCLIArg) (expected : UserVersion) (r : keybase1.WotVouch) :
    WotReactArg :=
  { SessionID := arg.SessionID, Voucher := expected, Proof := r.VouchProof,
    Reaction := arg.Reaction }

/-- The table of section 4.1 of the specification, read row by row: the error
with which a reaction on a record of the given status is refused, `none` when
the reaction is legal. -/
def tableRefusal (username : String) (status : WotStatusType)
    (reaction : WotReactionType) : Option Err :=
  if status = WotStatusType_PROPOSED then none
  else if status = WotStatusType_ACCEPTED then
    if reaction = WotReactionType_ACCEPT then some .alreadyAccepted else none
  else if status = WotStatusType_NONE then some (.corrupt username)
  else if status = WotStatusType_REJECTED then some .previouslyRejected
  else if status = WotStatusType_REVOKED then some .previouslyRevoked
  else some (.unknownStatus status)

/-- The outcome section 4.3 prescribes for a located record `r`: refuse by the
table, or reissue the reaction as a direct call with the proof of `r`. -/
def locatedOutcome (w : ReactWorld) (arg : WotReactCLIArg) (expected : UserVersion)
    (r : keybase1.WotVouch) : Outcome engine.WotReactArg :=
  match tableRefusal arg.Username r.Status arg.Reaction with
  | some err => { issued := [], err := some err }
  | none => WotReact w (reissue arg expected r)

/-- The world `w` with the attestation reader returning `vouches`. -/
def withVouches (w : ReactWorld) (vouches : List keybase1.WotVouch) : ReactWorld :=
  { Load := w.Load, FetchMyWot := .ok vouches, RunWotReact := w.RunWotReact }

/-- The event carries a name that, once normalised, is the target. -/
def nameMatches (norm : String → NormalizedUsername) (field : Option String)
    (target : NormalizedUsername) : Prop :=
  ∃ name, field = some name ∧ norm name = target

/-- Section 4.2 of the specification, in its words. -/
def specDismissable (norm : String → NormalizedUsername) (me : NormalizedUsername)
    (category : String) (msg : _wotMsg) (voucher vouchee : NormalizedUsername) : Prop :=
  let voucherMatches := nameMatches norm msg.Voucher voucher
  let voucheeMatches := nameMatches norm msg.Vouchee vouchee
  (category = "wot.new_vouch" ∧ voucherMatches ∧ (voucheeMatches ∨ vouchee = me)) ∨
  ((category = "wot.accepted" ∨ category = "wot.rejected") ∧
    voucheeMatches ∧ (voucherMatches ∨ voucher = me))

/-- The world `w` with the event store returning `items` as the pending events
under the "wot" category. -/
def withPending (w : GregorWorld) (items : List Item) : GregorWorld :=
  { me := w.me
    NewNormalizedUsername := w.NewNormalizedUsername
    State := .ok items
    MakeCategory := fun c => .ok c
    ItemsWithCategoryPrefix := fun state _ => .ok state
    DismissItem := w.DismissItem }

/-- The body of the item is an object that mentions both keys, each as null
or as a string. -/
def Item.complete (item : Item) : Prop :=
  ∃ a b, item.body = .object a b ∧ a ≠ .absent ∧ b ≠ .absent

/-- The decision for an event taken from that event alone: its category is
recognised and its own body, decoded into a fresh message, is dismissable. -/
def eligibleAlone (w : GregorWorld) (arg : DismissWotNotificationsArg) (item : Item) : Bool :=
  hasWotMsg item.category &&
    match Unmarshal item.body { Voucher := none, Vouchee := none } with
    | .ok msg =>
        isDismissable w.NewNormalizedUsername w.me item.category msg
          (w.NewNormalizedUsername arg.Voucher) (w.NewNormalizedUsername arg.Vouchee)
    | .error _ => false

/-! ## Sample data -/

def alice : UserVersion := { Uid := "a11ce", EldestSeqno := 1 }

def bob : UserVersion := { Uid := "b0b", EldestSeqno := 1 }

def carol : UserVersion := { Uid := "ca401", EldestSeqno := 2 }

def aliceUPAK : UserPlusAllKeys :=
  { Base := { Uid := "a11ce", Username := "alice", EldestSeqno := 1 } }

def vouchBy (voucher : UserVersion) (status : WotStatusType) (proof : String) :
    keybase1.WotVouch :=
  { Status := status, VouchProof := proof, Vouchee := bob, Voucher := voucher,
    VouchTexts := ["knows their keys"], Confidence := none }

/-- A world in which "alice" resolves, the caller has the given vouches and the
reaction engine succeeds. -/
def sampleWorld (vouches : List keybase1.WotVouch) : ReactWorld :=
  { Load := fun name =>
      if name = "alice" then .ok aliceUPAK else .error (.collaborator "no such user")
    FetchMyWot := .ok vouches
    RunWotReact := fun _ => none }

def reactArg (reaction : WotReactionType) : WotReactCLIArg :=
  { SessionID := 7, Username := "alice", Reaction := reaction }

/-- Carol's accepted vouch, then two vouches by alice: the located one is the
first of the two. -/
def vouchesWith (status : WotStatusType) : List keybase1.WotVouch :=
  [vouchBy carol WotStatusType_ACCEPTED "sig-carol", vouchBy alice status "sig-1",
   vouchBy alice WotStatusType_PROPOSED "sig-2"]

/-- A normalisation for the sample runs: ASCII lower-casing. -/
def asciiLower (s : String) : NormalizedUsername :=
  String.mk (s.data.map Char.toLower)

/-- The caller is bob; every dismiss call succeeds. -/
def bobWorld : GregorWorld :=
  { me := "bob"
    NewNormalizedUsername := asciiLower
    State := .ok []
    MakeCategory := fun c => .ok c
    ItemsWithCategoryPrefix := fun state _ => .ok state
    DismissItem := fun _ => none }

/-- The caller is bob; every dismiss call fails. -/
def offlineWorld : GregorWorld :=
  { me := "bob"
    NewNormalizedUsername := asciiLower
    State := .ok []
    MakeCategory := fun c => .ok c
    ItemsWithCategoryPrefix := fun state _ => .ok state
    DismissItem := fun _ => some (.collaborator "gregor: dismiss failed") }

def aliceBob : DismissWotNotificationsArg := { Voucher := "alice", Vouchee := "bob" }

/-- A new-vouch event naming both alice and bob. -/
def fullEvent : Item :=
  { category := "wot.new_vouch", body := .object (.str "alice") (.str "bob"), msgID := "m1" }

/-- An accepted event whose body is the empty object. -/
def emptyEvent : Item :=
  { category := "wot.accepted", body := .object .absent .absent, msgID := "m2" }

/-- A rejected event whose body does not decode. -/
def brokenEvent : Item :=
  { category := "wot.rejected", body := .malformed "unexpected end of JSON input",
    msgID := "m3" }

/-- An event of a category outside the three recognised ones. -/
def foreignEvent : Item :=
  { category := "wot.other", body := .malformed "invalid character", msgID := "m4" }

def vouchArg : WotVouchCLIArg :=
  { SessionID := 3, Assertion := "alice", VouchTexts := ["met in person"],
    Confidence := { payload := "in_person" } }

def aliceCurrent : UserPlusKeysV2AllIncarnations :=
  { Current := { Uid := "a11ce", Username := "alice", EldestSeqno := 4 } }

/-- A world in which "alice" resolves and is identified with the given track
breaks and one failing proof, and the vouch engine succeeds. -/
def identifyWorld (breaks : Option IdentifyTrackBreaks) : VouchWorld :=
  { Load := fun name =>
      if name = "alice" then .ok aliceUPAK else .error (.collaborator "no such user")
    RunIdentify := fun _ _ => none
    Result := fun _ => .ok (some { Upk := aliceCurrent, TrackBreaks := breaks })
    ResultWotFailingProofs := fun _ => .ok [{ payload := "twitter:alice" }]
    RunWotVouch := fun _ => none }

/-! ## Lemmas on the record lookup and the reaction switch -/

theorem reactingVouch_of_firstMatch {expected : UserVersion}
    {vouches : List keybase1.WotVouch}
    {r : keybase1.WotVouch} (h : FirstMatch expected vouches r) :
    reactingVouch expected vouches = some r := by
  obtain ⟨pre, post, rfl, hpre, hr⟩ := h
  induction pre with
  | nil => simp [reactingVouch, hr]
  | cons x xs ih =>
    have hx : x.Voucher.Eq expected = false := hpre x (List.mem_cons_self _ _)
    have hxs : ∀ y ∈ xs, y.Voucher.Eq expected = false :=
      fun y hy => hpre y (List.mem_cons_of_mem _ hy)
    simp [reactingVouch, hx, ih hxs]

theorem reactingVouch_eq_none {expected : UserVersion}
    {vouches : List keybase1.WotVouch} :
    reactingVouch expected vouches = none ↔
      ∀ x ∈ vouches, x.Voucher.Eq expected = false := by
  induction vouches with
  | nil => simp [reactingVouch]
  | cons x xs ih =>
    by_cases hx : x.Voucher.Eq expected = true
    · simp [reactingVouch, hx]
    · simp only [Bool.not_eq_true] at hx
      simp [reactingVouch, hx, ih]

theorem firstMatch_of_reactingVouch {expected : UserVersion}
    {vouches : List keybase1.WotVouch}
    {r : keybase1.WotVouch} (h : reactingVouch expected vouches = some r) :
    FirstMatch expected vouches r := by
  induction vouches with
  | nil => simp [reactingVouch] at h
  | cons x xs ih =>
    by_cases hx : x.Voucher.Eq expected = true
    · simp [reactingVouch, hx] at h
      subst h
      exact ⟨[], xs, rfl, by simp, hx⟩
    · simp only [Bool.not_eq_true] at hx
      simp [reactingVouch, hx] at h
      obtain ⟨pre, post, hsplit, hpre, hr⟩ := ih h
      refine ⟨x :: pre, post, by simp [hsplit], ?_, hr⟩
      intro y hy
      rcases List.mem_cons.mp hy with rfl | hy
      · exact hx
      · exact hpre y hy

/-- What `WotReactCLI` does once resolution and the fetch succeeded and the
lookup located `r`: the switch of wot.go:137-153 on `r`, then the reissue. -/
theorem WotReactCLI_located (w : ReactWorld) (arg : WotReactCLIArg)
    (upak : UserPlusAllKeys) (vouches : List keybase1.WotVouch) (r : keybase1.WotVouch)
    (hload : w.Load arg.Username = .ok upak) (hfetch : w.FetchMyWot = .ok vouches)
    (hfirst : FirstMatch upak.Base.ToUserVersion vouches r) :
    WotReactCLI w arg =
      if r.Status = WotStatusType_NONE then
        { issued := [], err := some (.corrupt arg.Username) }
      else if r.Status = WotStatusType_REJECTED then
        { issued := [], err := some .previouslyRejected }
      else if r.Status = WotStatusType_REVOKED then
        { issued := [], err := some .previouslyRevoked }
      else if r.Status = WotStatusType_ACCEPTED then
        if arg.Reaction = WotReactionType_ACCEPT then
          { issued := [], err := some .alreadyAccepted }
        else WotReact w (reissue arg upak.Base.ToUserVersion r)
      else if r.Status = WotStatusType_PROPOSED then
        WotReact w (reissue arg upak.Base.ToUserVersion r)
      else
        { issued := [], err := some (.unknownStatus r.Status) } := by
  simp only [WotReactCLI, hload, hfetch, reactingVouch_of_firstMatch hfirst, reissue]

theorem WotReactCLI_eq_locatedOutcome (w : ReactWorld) (arg : WotReactCLIArg)
    (upak : UserPlusAllKeys) (vouches : List keybase1.WotVouch) (r : keybase1.WotVouch)
    (hload : w.Load arg.Username = .ok upak) (hfetch : w.FetchMyWot = .ok vouches)
    (hfirst : FirstMatch upak.Base.ToUserVersion vouches r) :
    WotReactCLI w arg = locatedOutcome w arg upak.Base.ToUserVersion r := by
  rw [WotReactCLI_located w arg upak vouches r hload hfetch hfirst]
  unfold locatedOutcome tableRefusal
  simp only [WotStatusType_NONE, WotStatusType_PROPOSED, WotStatusType_ACCEPTED,
    WotStatusType_REJECTED, WotStatusType_REVOKED]
  split_ifs <;> simp_all

theorem firstMatch_vouchesWith (status : WotStatusType) :
    FirstMatch aliceUPAK.Base.ToUserVersion (vouchesWith status)
      (vouchBy alice status "sig-1") :=
  ⟨[vouchBy carol WotStatusType_ACCEPTED "sig-carol"],
   [vouchBy alice WotStatusType_PROPOSED "sig-2"], rfl,
   by intro x hx; rw [List.mem_singleton] at hx; subst hx; rfl, rfl⟩

theorem WotReactCLI_withVouches_located (w : ReactWorld) (arg : WotReactCLIArg)
    (upak : UserPlusAllKeys) (hload : w.Load arg.Username = .ok upak)
    (pre post : List keybase1.WotVouch) (r : keybase1.WotVouch)
    (hpre : ∀ x ∈ pre, x.Voucher.Eq upak.Base.ToUserVersion = false)
    (hr : r.Voucher.Eq upak.Base.ToUserVersion = true) :
    WotReactCLI (withVouches w (pre ++ r :: post)) arg =
      locatedOutcome w arg upak.Base.ToUserVersion r := by
  rw [WotReactCLI_eq_locatedOutcome (withVouches w (pre ++ r :: post)) arg upak
    (pre ++ r :: post) r hload rfl ⟨pre, post, rfl, hpre, hr⟩]
  rfl

/-! ## Lemmas on the dismissal loop -/

theorem nameMatches_iff (norm : String → NormalizedUsername) (field : Option String)
    (target : NormalizedUsername) :
    (match field with
      | some v => norm v == target
      | none => false) = true ↔ nameMatches norm field target := by
  cases field with
  | none => simp [nameMatches]
  | some v => simp [nameMatches]

theorem DismissWotNotifications_withPending (w : GregorWorld)
    (arg : DismissWotNotificationsArg) (items : List Item) :
    DismissWotNotifications (withPending w items) arg =
      dismissLoop w arg { Voucher := none, Vouchee := none } items := by
  have hme : (withPending w items).me = w.me := rfl
  have hnorm : (withPending w items).NewNormalizedUsername = w.NewNormalizedUsername := rfl
  have hcall : (withPending w items).DismissItem = w.DismissItem := rfl
  have h : ∀ (l : List Item) (st : _wotMsg),
      dismissLoop (withPending w items) arg st l = dismissLoop w arg st l := by
    intro l
    induction l with
    | nil =>
      intro st
      simp [dismissLoop]
    | cons x xs ih =>
      intro st
      simp only [dismissLoop, ih, hme, hnorm, hcall]
  have hrun : DismissWotNotifications (withPending w items) arg =
      dismissLoop (withPending w items) arg { Voucher := none, Vouchee := none } items := rfl
  rw [hrun, h]

theorem dismissLoop_append_malformed (w : GregorWorld) (arg : DismissWotNotificationsArg)
    (bad : Item) (d : String) (post : List Item)
    (hrec : hasWotMsg bad.category = true) (hbad : bad.body = .malformed d) :
    ∀ (pre : List Item) (st : _wotMsg),
      dismissLoop w arg st (pre ++ bad :: post) =
        { issued := (dismissLoop w arg st pre).issued
          err := match (dismissLoop w arg st pre).err with
            | some e => some e
            | none => some (.decode d) } := by
  intro pre
  induction pre with
  | nil =>
    intro st
    simp [dismissLoop, hrec, hbad, Unmarshal]
  | cons x xs ih =>
    intro st
    simp only [List.cons_append, dismissLoop]
    split
    · exact ih st
    · split
      · rfl
      · split
        · split
          · rfl
          · simp [ih]
        · exact ih _

theorem dismissLoop_skip_unrecognised (w : GregorWorld) (arg : DismissWotNotificationsArg)
    (u : Item) (hu : hasWotMsg u.category = false) (post : List Item) :
    ∀ (pre : List Item) (st : _wotMsg),
      dismissLoop w arg st (pre ++ u :: post) = dismissLoop w arg st (pre ++ post) := by
  intro pre
  induction pre with
  | nil =>
    intro st
    simp [dismissLoop, hu]
  | cons x xs ih =>
    intro st
    rw [List.cons_append, List.cons_append]
    simp only [dismissLoop, ih]

theorem dismissLoop_err_none (w : GregorWorld) (arg : DismissWotNotificationsArg) :
    ∀ (items : List Item) (st : _wotMsg),
      (∀ x ∈ items, hasWotMsg x.category = true → ∃ a b, x.body = .object a b) →
      (∀ id ∈ (dismissLoop w arg st items).issued, w.DismissItem id = none) →
      (dismissLoop w arg st items).err = none := by
  intro items
  induction items with
  | nil =>
    intro st _ _
    rfl
  | cons x xs ih =>
    intro st hdec hok
    have hxs : ∀ y ∈ xs, hasWotMsg y.category = true → ∃ a b, y.body = .object a b :=
      fun y hy => hdec y (List.mem_cons_of_mem _ hy)
    simp only [dismissLoop] at hok ⊢
    split
    · rename_i hcat
      simp only [hcat, if_true] at hok
      exact ih st hxs hok
    · rename_i hcat
      simp only [hcat] at hok
      simp only [Bool.not_eq_true, Bool.not_eq_false_eq_eq_true, Bool.not_eq_true_eq_eq_false,
        Bool.not_not, Bool.not_eq_false] at hcat
      obtain ⟨a, b, hbody⟩ := hdec x (List.mem_cons_self _ _) (by simpa using hcat)
      simp only [hbody, Unmarshal] at hok ⊢
      split
      · rename_i hdis
        simp only [hdis, if_true] at hok
        cases hcall : w.DismissItem x.msgID with
        | some e =>
          simp only [hcall] at hok
          have := hok x.msgID (List.mem_singleton.mpr rfl)
          rw [hcall] at this
          exact absurd this (by simp)
        | none =>
          simp only [hcall] at hok ⊢
          exact ih _ hxs (fun id hid => hok id (List.mem_cons_of_mem _ hid))
      · rename_i hdis
        simp only [hdis] at hok
        exact ih _ hxs hok

theorem dismissLoop_issued_sublist (w : GregorWorld) (arg : DismissWotNotificationsArg) :
    ∀ (items : List Item) (st : _wotMsg),
      ((dismissLoop w arg st items).issued).Sublist (items.map Item.msgID) := by
  intro items
  induction items with
  | nil =>
    intro st
    simp [dismissLoop]
  | cons x xs ih =>
    intro st
    simp only [dismissLoop, List.map_cons]
    split
    · exact (ih st).cons _
    · split
      · simp
      · split
        · split
          · simp
          · exact (ih _).cons₂ _
        · exact (ih _).cons _

theorem Unmarshal_of_complete (item : Item) (h : item.complete) (st fresh : _wotMsg) :
    Unmarshal item.body st = Unmarshal item.body fresh := by
  obtain ⟨a, b, hbody, ha, hb⟩ := h
  rw [hbody]
  cases a <;> cases b <;> simp_all [Unmarshal, JSONField.store]

/-- When every recognised event mentions both keys in its body and every
dismiss call succeeds, the batch dismisses exactly, in order, the events that
are eligible taken alone. -/
theorem dismissLoop_of_complete_bodies (w : GregorWorld) (arg : DismissWotNotificationsArg)
    (hcalls : ∀ id, w.DismissItem id = none) :
    ∀ (items : List Item) (st : _wotMsg),
      (∀ x ∈ items, hasWotMsg x.category = true → x.complete) →
      dismissLoop w arg st items =
        { issued := (items.filter (eligibleAlone w arg)).map Item.msgID, err := none } := by
  intro items
  induction items with
  | nil =>
    intro st _
    simp [dismissLoop]
  | cons x xs ih =>
    intro st hall
    have hxs : ∀ y ∈ xs, hasWotMsg y.category = true → y.complete :=
      fun y hy => hall y (List.mem_cons_of_mem _ hy)
    by_cases hcat : hasWotMsg x.category = true
    · have hx := hall x (List.mem_cons_self _ _) hcat
      obtain ⟨a, b, hbody, ha, hb⟩ := hx
      have hva : JSONField.store st.Voucher a = JSONField.store none a := by
        cases a <;> simp_all [JSONField.store]
      have hvb : JSONField.store st.Vouchee b = JSONField.store none b := by
        cases b <;> simp_all [JSONField.store]
      simp only [dismissLoop, hcat, List.filter_cons, eligibleAlone, hbody, Unmarshal,
        Bool.true_and, Bool.not_true, Bool.false_eq_true, if_false, hva, hvb]
      split
      · simp [hcalls, ih _ hxs]
      · simp [ih _ hxs]
    · simp only [Bool.not_eq_true] at hcat
      simp [dismissLoop, hcat, List.filter_cons, eligibleAlone, ih st hxs]

/-! ## Claims on WotReactCLI -/

/-- C1: when the first record of the caller's vouch list whose voucher is the
resolved identity has status PROPOSED, then for every requested reaction (ACCEPT
and REJECT among them) validation passes: the operation is exactly the direct
call `WotReact` with the resolved voucher, that record's own vouchProof and the
requested reaction, exactly one reaction reaches the engine, and the result is
the engine's. -/
theorem C1_proposed_reaction_issued (w : ReactWorld) (arg : WotReactCLIArg)
    (upak : UserPlusAllKeys) (vouches : List keybase1.WotVouch) (r : keybase1.WotVouch)
    (hload : w.Load arg.Username = .ok upak) (hfetch : w.FetchMyWot = .ok vouches)
    (hfirst : FirstMatch upak.Base.ToUserVersion vouches r)
    (hstatus : r.Status = WotStatusType_PROPOSED) :
    WotReactCLI w arg =
        WotReact w { SessionID := arg.SessionID, Voucher := upak.Base.ToUserVersion,
                     Proof := r.VouchProof, Reaction := arg.Reaction } ∧
      (WotReactCLI w arg).issued =
        [{ Voucher := upak.Base.ToUserVersion, Proof := r.VouchProof,
           Reaction := arg.Reaction }] ∧
      (WotReactCLI w arg).err =
        w.RunWotReact { Voucher := upak.Base.ToUserVersion, Proof := r.VouchProof,
                        Reaction := arg.Reaction } := by
  rw [WotReactCLI_located w arg upak vouches r hload hfetch hfirst]
  simp [hstatus, WotStatusType_NONE, WotStatusType_PROPOSED, WotStatusType_ACCEPTED,
    WotStatusType_REJECTED, WotStatusType_REVOKED, WotReact, reissue]

theorem C1_proposed_reaction_issued_witness :
    (WotReactCLI (sampleWorld (vouchesWith WotStatusType_PROPOSED))
        (reactArg WotReactionType_REJECT)).issued =
      [{ Voucher := alice, Proof := "sig-1", Reaction := WotReactionType_REJECT }] :=
  (C1_proposed_reaction_issued (sampleWorld (vouchesWith WotStatusType_PROPOSED))
    (reactArg WotReactionType_REJECT) aliceUPAK (vouchesWith WotStatusType_PROPOSED)
    (vouchBy alice WotStatusType_PROPOSED "sig-1") rfl rfl
    (firstMatch_vouchesWith WotStatusType_PROPOSED) rfl).2.1

/-- C2: for a located record with status ACCEPTED, a requested ACCEPT fails with
the no-op error "already accepted" and no reaction is issued, while a requested
REJECT passes validation and is issued as the direct reaction call. -/
theorem C2_accepted_record (w : ReactWorld) (arg : WotReactCLIArg)
    (upak : UserPlusAllKeys) (vouches : List keybase1.WotVouch) (r : keybase1.WotVouch)
    (hload : w.Load arg.Username = .ok upak) (hfetch : w.FetchMyWot = .ok vouches)
    (hfirst : FirstMatch upak.Base.ToUserVersion vouches r)
    (hstatus : r.Status = WotStatusType_ACCEPTED) :
    (arg.Reaction = WotReactionType_ACCEPT →
        WotReactCLI w arg = { issued := [], err := some .alreadyAccepted } ∧
        Err.alreadyAccepted.kind = ErrorKind.NoOpError ∧
        Err.alreadyAccepted.message = some "already accepted") ∧
      (arg.Reaction = WotReactionType_REJECT →
        WotReactCLI w arg =
          WotReact w { SessionID := arg.SessionID, Voucher := upak.Base.ToUserVersion,
                       Proof := r.VouchProof, Reaction := WotReactionType_REJECT } ∧
        (WotReactCLI w arg).issued =
          [{ Voucher := upak.Base.ToUserVersion, Proof := r.VouchProof,
             Reaction := WotReactionType_REJECT }]) := by
  rw [WotReactCLI_located w arg upak vouches r hload hfetch hfirst]
  constructor
  · intro hreact
    simp [hstatus, hreact, WotStatusType_NONE, WotStatusType_ACCEPTED,
      WotStatusType_REJECTED, WotStatusType_REVOKED, Err.kind, Err.message]
  · intro hreact
    simp [hstatus, hreact, WotStatusType_NONE, WotStatusType_ACCEPTED,
      WotStatusType_REJECTED, WotStatusType_REVOKED, WotReactionType_ACCEPT,
      WotReactionType_REJECT, WotReact, reissue]

theorem C2_accepted_record_witness :
    WotReactCLI (sampleWorld (vouchesWith WotStatusType_ACCEPTED))
        (reactArg WotReactionType_ACCEPT) =
      { issued := [], err := some .alreadyAccepted } ∧
    (WotReactCLI (sampleWorld (vouchesWith WotStatusType_ACCEPTED))
        (reactArg WotReactionType_REJECT)).issued =
      [{ Voucher := alice, Proof := "sig-1", Reaction := WotReactionType_REJECT }] :=
  ⟨((C2_accepted_record (sampleWorld (vouchesWith WotStatusType_ACCEPTED))
      (reactArg WotReactionType_ACCEPT) aliceUPAK (vouchesWith WotStatusType_ACCEPTED)
      (vouchBy alice WotStatusType_ACCEPTED "sig-1") rfl rfl
      (firstMatch_vouchesWith WotStatusType_ACCEPTED) rfl).1 rfl).1,
   ((C2_accepted_record (sampleWorld (vouchesWith WotStatusType_ACCEPTED))
      (reactArg WotReactionType_REJECT) aliceUPAK (vouchesWith WotStatusType_ACCEPTED)
      (vouchBy alice WotStatusType_ACCEPTED "sig-1") rfl rfl
      (firstMatch_vouchesWith WotStatusType_ACCEPTED) rfl).2 rfl).2⟩

/-- C3: for a located record with status REJECTED or REVOKED and for every
requested reaction, the operation fails with an error of kind
IllegalTransitionError ("previously rejected", resp. "previously revoked") and
issues no reaction. -/
theorem C3_rejected_or_revoked (w : ReactWorld) (arg : WotReactCLIArg)
    (upak : UserPlusAllKeys) (vouches : List keybase1.WotVouch) (r : keybase1.WotVouch)
    (hload : w.Load arg.Username = .ok upak) (hfetch : w.FetchMyWot = .ok vouches)
    (hfirst : FirstMatch upak.Base.ToUserVersion vouches r)
    (hstatus : r.Status = WotStatusType_REJECTED ∨ r.Status = WotStatusType_REVOKED) :
    (WotReactCLI w arg).issued = [] ∧
      (∃ e, (WotReactCLI w arg).err = some e ∧ e.kind = ErrorKind.IllegalTransitionError) ∧
      (r.Status = WotStatusType_REJECTED →
        WotReactCLI w arg = { issued := [], err := some .previouslyRejected }) ∧
      (r.Status = WotStatusType_REVOKED →
        WotReactCLI w arg = { issued := [], err := some .previouslyRevoked }) := by
  rw [WotReactCLI_located w arg upak vouches r hload hfetch hfirst]
  rcases hstatus with h | h <;>
    simp [h, WotStatusType_NONE, WotStatusType_REJECTED, WotStatusType_REVOKED, Err.kind]

theorem C3_rejected_or_revoked_witness :
    WotReactCLI (sampleWorld (vouchesWith WotStatusType_REVOKED))
        (reactArg WotReactionType_ACCEPT) =
      { issued := [], err := some .previouslyRevoked } :=
  (C3_rejected_or_revoked (sampleWorld (vouchesWith WotStatusType_REVOKED))
    (reactArg WotReactionType_ACCEPT) aliceUPAK (vouchesWith WotStatusType_REVOKED)
    (vouchBy alice WotStatusType_REVOKED "sig-1") rfl rfl
    (firstMatch_vouchesWith WotStatusType_REVOKED) (Or.inr rfl)).2.2.2 rfl

/-- C4: for every requested reaction, a located record with status NONE fails
with the InvalidStateError and one whose status is none of NONE, PROPOSED,
ACCEPTED, REJECTED, REVOKED fails with the UnknownStateError, in both cases
without a reaction being issued; and a reaction is issued only when the status is
PROPOSED, or ACCEPTED with a reaction other than ACCEPT, which for a reaction
that is ACCEPT or REJECT means REJECT. -/
theorem C4_none_and_unknown_status (w : ReactWorld) (arg : WotReactCLIArg)
    (upak : UserPlusAllKeys) (vouches : List keybase1.WotVouch) (r : keybase1.WotVouch)
    (hload : w.Load arg.Username = .ok upak) (hfetch : w.FetchMyWot = .ok vouches)
    (hfirst : FirstMatch upak.Base.ToUserVersion vouches r) :
    (r.Status = WotStatusType_NONE →
        WotReactCLI w arg = { issued := [], err := some (.corrupt arg.Username) } ∧
        (Err.corrupt arg.Username).kind = ErrorKind.InvalidStateError) ∧
      ((r.Status ≠ WotStatusType_NONE ∧ r.Status ≠ WotStatusType_PROPOSED ∧
          r.Status ≠ WotStatusType_ACCEPTED ∧ r.Status ≠ WotStatusType_REJECTED ∧
          r.Status ≠ WotStatusType_REVOKED) →
        WotReactCLI w arg = { issued := [], err := some (.unknownStatus r.Status) } ∧
        (Err.unknownStatus r.Status).kind = ErrorKind.UnknownStateError) ∧
      ((WotReactCLI w arg).issued ≠ [] ↔
        (r.Status = WotStatusType_PROPOSED ∨
          (r.Status = WotStatusType_ACCEPTED ∧ arg.Reaction ≠ WotReactionType_ACCEPT))) ∧
      ((arg.Reaction = WotReactionType_ACCEPT ∨ arg.Reaction = WotReactionType_REJECT) →
        ((WotReactCLI w arg).issued ≠ [] ↔
          (r.Status = WotStatusType_PROPOSED ∨
            (r.Status = WotStatusType_ACCEPTED ∧
              arg.Reaction = WotReactionType_REJECT)))) := by
  rw [WotReactCLI_located w arg upak vouches r hload hfetch hfirst]
  simp only [WotStatusType_NONE, WotStatusType_PROPOSED, WotStatusType_ACCEPTED,
    WotStatusType_REJECTED, WotStatusType_REVOKED, WotReactionType_ACCEPT,
    WotReactionType_REJECT, Err.kind, WotReact]
  refine ⟨?_, ?_, ?_, ?_⟩
  · intro h
    simp [h]
  · rintro ⟨h0, h1, h2, h3, h4⟩
    simp [h0, h1, h2, h3, h4]
  · split_ifs <;> simp_all
  · intro hreact
    split_ifs <;> simp_all

theorem C4_none_and_unknown_status_witness :
    WotReactCLI (sampleWorld (vouchesWith 9)) (reactArg WotReactionType_REJECT) =
        { issued := [], err := some (.unknownStatus 9) } ∧
      WotReactCLI (sampleWorld (vouchesWith WotStatusType_NONE))
          (reactArg WotReactionType_REJECT) =
        { issued := [], err := some (.corrupt "alice") } :=
  ⟨((C4_none_and_unknown_status (sampleWorld (vouchesWith 9))
      (reactArg WotReactionType_REJECT) aliceUPAK (vouchesWith 9)
      (vouchBy alice 9 "sig-1") rfl rfl (firstMatch_vouchesWith 9)).2.1
      (by decide)).1,
   ((C4_none_and_unknown_status (sampleWorld (vouchesWith WotStatusType_NONE))
      (reactArg WotReactionType_REJECT) aliceUPAK (vouchesWith WotStatusType_NONE)
      (vouchBy alice WotStatusType_NONE "sig-1") rfl rfl
      (firstMatch_vouchesWith WotStatusType_NONE)).1 rfl).1⟩

/-- C5: the lookup of WotReactCLI is find-first.  Once the name resolved, for a
list `pre ++ r :: post` in which no record of `pre` has the resolved voucher and
`r` has it, the outcome is the one prescribed for `r` (the table applied to the
status of `r`, the proof of `r` reused), so it is the same whatever `post` is;
and for every list the operation returns the not-found error without issuing a
reaction exactly when no record of the list has the resolved voucher. -/
theorem C5_find_first (w : ReactWorld) (arg : WotReactCLIArg) (upak : UserPlusAllKeys)
    (hload : w.Load arg.Username = .ok upak) :
    (∀ (pre : List keybase1.WotVouch) (r : keybase1.WotVouch)
        (post : List keybase1.WotVouch),
        (∀ x ∈ pre, x.Voucher.Eq upak.Base.ToUserVersion = false) →
        r.Voucher.Eq upak.Base.ToUserVersion = true →
        WotReactCLI (withVouches w (pre ++ r :: post)) arg =
          locatedOutcome w arg upak.Base.ToUserVersion r) ∧
      (∀ (pre : List keybase1.WotVouch) (r : keybase1.WotVouch)
          (post other : List keybase1.WotVouch),
        (∀ x ∈ pre, x.Voucher.Eq upak.Base.ToUserVersion = false) →
        r.Voucher.Eq upak.Base.ToUserVersion = true →
        WotReactCLI (withVouches w (pre ++ r :: post)) arg =
          WotReactCLI (withVouches w (pre ++ r :: other)) arg) ∧
      (∀ vouches : List keybase1.WotVouch,
        (WotReactCLI (withVouches w vouches) arg =
            { issued := [], err := some (.notFound arg.Username) } ∧
          (Err.notFound arg.Username).kind = ErrorKind.NotFoundError) ↔
        ∀ x ∈ vouches, x.Voucher.Eq upak.Base.ToUserVersion = false) := by
  refine ⟨?_, ?_, ?_⟩
  · intro pre r post hpre hr
    exact WotReactCLI_withVouches_located w arg upak hload pre post r hpre hr
  · intro pre r post other hpre hr
    rw [WotReactCLI_withVouches_located w arg upak hload pre post r hpre hr,
      WotReactCLI_withVouches_located w arg upak hload pre other r hpre hr]
  · intro vouches
    constructor
    · rintro ⟨hres, -⟩
      rw [← reactingVouch_eq_none]
      cases hfind : reactingVouch upak.Base.ToUserVersion vouches with
      | none => rfl
      | some r =>
        exfalso
        have hfirst := firstMatch_of_reactingVouch hfind
        rw [WotReactCLI_located (withVouches w vouches) arg upak vouches r hload rfl
          hfirst] at hres
        revert hres
        simp only [WotReact]
        split_ifs <;> simp
    · intro hnone
      have hfind := reactingVouch_eq_none.mpr hnone
      refine ⟨?_, rfl⟩
      simp only [WotReactCLI, withVouches, hload, hfind]

theorem C5_find_first_witness :
    WotReactCLI (withVouches (sampleWorld []) (vouchesWith WotStatusType_REJECTED))
        (reactArg WotReactionType_ACCEPT) =
      locatedOutcome (sampleWorld []) (reactArg WotReactionType_ACCEPT)
        aliceUPAK.Base.ToUserVersion (vouchBy alice WotStatusType_REJECTED "sig-1") :=
  (C5_find_first (sampleWorld []) (reactArg WotReactionType_ACCEPT) aliceUPAK rfl).1
    [vouchBy carol WotStatusType_ACCEPTED "sig-carol"]
    (vouchBy alice WotStatusType_REJECTED "sig-1")
    [vouchBy alice WotStatusType_PROPOSED "sig-2"]
    (by intro x hx; rw [List.mem_singleton] at hx; subst hx; rfl) rfl

/-! ## Claims on the notification matcher and the dismissal batch -/

/-- C6: isDismissable is the decision rule of section 4.2 for every category,
event body, target pair and caller: true exactly when the category is
wot.new_vouch and voucherMatches and (voucheeMatches or the target vouchee is the
caller), or the category is wot.accepted or wot.rejected and voucheeMatches and
(voucherMatches or the target voucher is the caller); false for every other
category.  For the target (alice, bob), the event with category wot.new_vouch,
voucher alice and no vouchee is dismissable for the caller bob and not for the
caller carol. -/
theorem C6_isDismissable_is_rule :
    (∀ (norm : String → NormalizedUsername) (me : NormalizedUsername) (category : String)
        (msg : _wotMsg) (voucher vouchee : NormalizedUsername),
        (isDismissable norm me category msg voucher vouchee = true ↔
          specDismissable norm me category msg voucher vouchee) ∧
        (category = "wot.new_vouch" ∨ category = "wot.accepted" ∨
          category = "wot.rejected" ∨
          isDismissable norm me category msg voucher vouchee = false)) ∧
      isDismissable asciiLower "bob" "wot.new_vouch"
        { Voucher := some "alice", Vouchee := none } "alice" "bob" = true ∧
      isDismissable asciiLower "carol" "wot.new_vouch"
        { Voucher := some "alice", Vouchee := none } "alice" "bob" = false := by
  refine ⟨?_, by decide, by decide⟩
  intro norm me category msg voucher vouchee
  have hv := nameMatches_iff norm msg.Voucher voucher
  have he := nameMatches_iff norm msg.Vouchee vouchee
  constructor
  · unfold isDismissable specDismissable
    simp only []
    split_ifs with h1 h2
    · simp only [Bool.and_eq_true, Bool.or_eq_true, hv, he, beq_iff_eq, h1, true_and]
      constructor
      · intro h
        exact Or.inl h
      · rintro (h | ⟨h, -⟩)
        · exact h
        · rcases h with h | h <;> exact absurd h (by decide)
    · simp only [Bool.and_eq_true, Bool.or_eq_true, hv, he, beq_iff_eq, h1, h2, false_and,
        true_and, false_or]
    · have h2a : ¬ category = "wot.accepted" := fun h => h2 (Or.inl h)
      have h2b : ¬ category = "wot.rejected" := fun h => h2 (Or.inr h)
      simp [h1, h2a, h2b]
  · unfold isDismissable
    by_cases h1 : category = "wot.new_vouch"
    · exact Or.inl h1
    · by_cases h2 : category = "wot.accepted"
      · exact Or.inr (Or.inl h2)
      · by_cases h3 : category = "wot.rejected"
        · exact Or.inr (Or.inr (Or.inl h3))
        · simp [h1, h2, h3]

/-- C7, refuted as stated: for the target (alice, bob) and the caller bob, so
that the target vouchee is the caller, a wot.new_vouch event without a vouchee
field is not dismissable when its voucher field is absent, nor when it names
someone other than alice. -/
theorem C7_counterexample :
    ({ Voucher := none, Vouchee := none } : _wotMsg).Vouchee = none ∧
      isDismissable asciiLower "bob" "wot.new_vouch"
        { Voucher := none, Vouchee := none } "alice" "bob" = false ∧
      isDismissable asciiLower "bob" "wot.new_vouch"
        { Voucher := some "mallory", Vouchee := none } "alice" "bob" = false := by
  decide

/-- C7, amended: a wot.new_vouch event without a vouchee field, for a target
whose vouchee is the caller, is dismissable exactly when the event carries a
voucher name that, normalised, is the target voucher. -/
theorem C7_new_vouch_without_vouchee (norm : String → NormalizedUsername)
    (me : NormalizedUsername) (msg : _wotMsg) (voucher vouchee : NormalizedUsername)
    (hmissing : msg.Vouchee = none) (hme : vouchee = me) :
    isDismissable norm me "wot.new_vouch" msg voucher vouchee = true ↔
      nameMatches norm msg.Voucher voucher := by
  have hv := nameMatches_iff norm msg.Voucher voucher
  unfold isDismissable
  simp only [hmissing, hme, if_true, Bool.and_eq_true, Bool.or_eq_true, beq_self_eq_true,
    or_true, and_true, hv]

theorem C7_new_vouch_without_vouchee_witness :
    isDismissable asciiLower "bob" "wot.new_vouch"
        { Voucher := some "Alice", Vouchee := none } "alice" "bob" = true ↔
      nameMatches asciiLower (some "Alice") "alice" :=
  C7_new_vouch_without_vouchee asciiLower "bob" { Voucher := some "Alice", Vouchee := none }
    "alice" "bob" rfl rfl

/-- C8, the code at the failing input: both bodies decode and both dismiss calls
succeed; taken alone, only the first event is eligible (the second carries
neither name), yet the batch dismisses both, because the second body is decoded
into the message left by the first. -/
theorem C8_stale_fields_dismiss_second_event :
    (Unmarshal fullEvent.body { Voucher := none, Vouchee := none } =
        .ok { Voucher := some "alice", Vouchee := some "bob" }) ∧
      (Unmarshal emptyEvent.body { Voucher := none, Vouchee := none } =
        .ok { Voucher := none, Vouchee := none }) ∧
      (bobWorld.DismissItem "m1" = none ∧ bobWorld.DismissItem "m2" = none) ∧
      (DismissWotNotifications (withPending bobWorld [fullEvent, emptyEvent]) aliceBob =
        { issued := ["m1", "m2"], err := none }) ∧
      (([fullEvent, emptyEvent].filter (eligibleAlone bobWorld aliceBob)).map Item.msgID =
        ["m1"]) ∧
      (DismissWotNotifications (withPending bobWorld [emptyEvent]) aliceBob =
        { issued := [], err := none }) := by
  refine ⟨rfl, rfl, ⟨rfl, rfl⟩, ?_, ?_, ?_⟩ <;> decide

/-- C9, refuted as stated: with pre = [fullEvent], bad = brokenEvent (the first
recognised event that does not decode) and post empty, the dismiss call for the
event of pre fails and the operation returns that failure, not the decode error
of bad. -/
theorem C9_counterexample :
    hasWotMsg brokenEvent.category = true ∧
      brokenEvent.body = .malformed "unexpected end of JSON input" ∧
      eligibleAlone offlineWorld aliceBob fullEvent = true ∧
      DismissWotNotifications (withPending offlineWorld ([fullEvent] ++ brokenEvent :: []))
          aliceBob =
        { issued := ["m1"], err := some (.collaborator "gregor: dismiss failed") } ∧
      (DismissWotNotifications (withPending offlineWorld ([fullEvent] ++ brokenEvent :: []))
          aliceBob).err ≠ some (.decode "unexpected end of JSON input") := by
  decide

/-- C9, amended: for a pending list pre ++ [bad] ++ post in which bad is the
first recognised-category event whose body does not decode, and in which every
dismiss call issued for pre succeeds, the operation returns the decode error of
bad, and the dismiss calls it issues are exactly those of a run over pre alone,
each for an event of pre (none for bad or post, none undone); and an event of
unrecognised category, whatever its body, can be dropped from any pending list
without changing the outcome. -/
theorem C9_fail_fast_on_decode_error (w : GregorWorld) (arg : DismissWotNotificationsArg)
    (pre : List Item) (bad : Item) (post : List Item) (detail : String)
    (hrec : hasWotMsg bad.category = true) (hbad : bad.body = .malformed detail)
    (hpre : ∀ x ∈ pre, hasWotMsg x.category = true → ∃ a b, x.body = .object a b)
    (hcalls : ∀ id ∈ (DismissWotNotifications (withPending w pre) arg).issued,
      w.DismissItem id = none) :
    DismissWotNotifications (withPending w (pre ++ bad :: post)) arg =
        { issued := (DismissWotNotifications (withPending w pre) arg).issued
          err := some (.decode detail) } ∧
      (Err.decode detail).kind = ErrorKind.DecodeError ∧
      ((DismissWotNotifications (withPending w (pre ++ bad :: post)) arg).issued).Sublist
        (pre.map Item.msgID) ∧
      (DismissWotNotifications (withPending w pre) arg).err = none ∧
      (∀ (u : Item) (before after : List Item), hasWotMsg u.category = false →
        DismissWotNotifications (withPending w (before ++ u :: after)) arg =
          DismissWotNotifications (withPending w (before ++ after)) arg) := by
  simp only [DismissWotNotifications_withPending] at hcalls ⊢
  have herr := dismissLoop_err_none w arg pre _ hpre hcalls
  have happ := dismissLoop_append_malformed w arg bad detail post hrec hbad pre
    { Voucher := none, Vouchee := none }
  refine ⟨?_, rfl, ?_, herr, ?_⟩
  · rw [happ, herr]
  · rw [happ]
    exact dismissLoop_issued_sublist w arg pre _
  · intro u before after hu
    exact dismissLoop_skip_unrecognised w arg u hu after before _

theorem C9_fail_fast_on_decode_error_witness :
    DismissWotNotifications
        (withPending bobWorld ([foreignEvent, fullEvent] ++ brokenEvent :: [emptyEvent]))
        aliceBob =
      { issued := (DismissWotNotifications (withPending bobWorld [foreignEvent, fullEvent])
          aliceBob).issued
        err := some (.decode "unexpected end of JSON input") } :=
  (C9_fail_fast_on_decode_error bobWorld aliceBob [foreignEvent, fullEvent] brokenEvent
    [emptyEvent] "unexpected end of JSON input" (by decide) rfl
    (by
      intro x hx hrec
      simp only [List.mem_cons, List.mem_singleton, List.not_mem_nil, or_false] at hx
      rcases hx with rfl | rfl
      · exact absurd hrec (by decide)
      · exact ⟨_, _, rfl⟩)
    (by intro id _; rfl)).1

/-! ## Claim on WotVouchCLI -/

/-- C10: when resolution and identification succeed and yield a result, then if
the result's trackBreaks are non-nil the operation fails with the
TrackingBrokeError and issues no vouch; and if they are nil and collecting the
failing proofs succeeds, exactly one vouch is issued, for the current identity of
the identified user, with the caller's vouch texts and confidence unchanged and
the collected failing proofs alongside, and the result is the vouch engine's. -/
theorem C10_interactive_vouch (w : VouchWorld) (arg : WotVouchCLIArg)
    (upak : UserPlusAllKeys) (idRes : Identify2ResUPK2)
    (hload : w.Load arg.Assertion = .ok upak)
    (hrun : w.RunIdentify (identify2Arg upak arg) arg.SessionID = none)
    (hres : w.Result (identify2Arg upak arg) = .ok (some idRes)) :
    (idRes.TrackBreaks ≠ none →
        WotVouchCLI w arg = { issued := [], err := some .trackingBroke } ∧
        Err.trackingBroke.kind = ErrorKind.TrackingBrokeError) ∧
      (idRes.TrackBreaks = none →
        ∀ failingProofs : List WotProof,
          w.ResultWotFailingProofs (identify2Arg upak arg) = .ok failingProofs →
          WotVouchCLI w arg =
            { issued := [{ Vouchee := idRes.Upk.Current.ToUserVersion
                           Confidence := arg.Confidence
                           FailingProofs := failingProofs
                           VouchTexts := arg.VouchTexts }]
              err := w.RunWotVouch { Vouchee := idRes.Upk.Current.ToUserVersion
                                     Confidence := arg.Confidence
                                     FailingProofs := failingProofs
                                     VouchTexts := arg.VouchTexts } }) := by
  constructor
  · intro hbreaks
    simp only [WotVouchCLI, hload, hrun, hres, Err.kind]
    simp [hbreaks]
  · intro hnil failingProofs hproofs
    simp only [WotVouchCLI, hload, hrun, hres, hnil, hproofs]
    simp

theorem C10_interactive_vouch_witness :
    WotVouchCLI (identifyWorld (some { Keys := [], Proofs := [] })) vouchArg =
        { issued := [], err := some .trackingBroke } ∧
      WotVouchCLI (identifyWorld none) vouchArg =
        { issued := [{ Vouchee := { Uid := "a11ce", EldestSeqno := 4 }
                       Confidence := { payload := "in_person" }
                       FailingProofs := [{ payload := "twitter:alice" }]
                       VouchTexts := ["met in person"] }]
          err := none } :=
  ⟨((C10_interactive_vouch (identifyWorld (some { Keys := [], Proofs := [] })) vouchArg
      aliceUPAK { Upk := aliceCurrent, TrackBreaks := some { Keys := [], Proofs := [] } }
      rfl rfl rfl).1 (by decide)).1,
   (C10_interactive_vouch (identifyWorld none) vouchArg aliceUPAK
      { Upk := aliceCurrent, TrackBreaks := none } rfl rfl rfl).2 rfl
      [{ payload := "twitter:alice" }] rfl⟩

end service
